import Mathlib

/-!
A shallow embedding of `src/transcription.py` (class `TranscriptionService`).

Modelling conventions:
* The filesystem is an association list of `FileEntry` (path, size, and a
  `canRemove` flag recording whether the OS permits `os.remove` on that path;
  `os.remove` on a real system can raise, e.g. `PermissionError`).
* Python exceptions are `PyErr` values (a kind plus the message `str(e)`
  yields).  A Python function body that may raise is a Lean function into
  `Except (PyErr × Fs) (α × Fs)`: both outcomes carry the filesystem as
  mutated so far, since Python side effects persist past a raise.
* The external media extractor (`yt_dlp.YoutubeDL(...).download`) and the
  speech model (`whisper.load_model`, `model.transcribe`) are oracles passed
  in as function parameters; they either complete or raise, exactly as the
  code treats them.  `except Exception` in the source catches every oracle
  failure, so all oracle raises are modelled at that level.
* `tempfile.gettempdir()` and `int(time.time())` are pure inputs
  (`tempDir`, `timestamp`).
* `gc.collect()` and `torch.cuda.empty_cache()` have no observable effect in
  this model and are omitted.
-/

/-- A file on disk: its path, its size in bytes (`os.path.getsize`), and
whether the OS will let `os.remove` delete it (false models e.g. a
`PermissionError` on deletion). -/
structure FileEntry where
  path : String
  size : Nat
  canRemove : Bool
  deriving Repr, DecidableEq

/-- The filesystem: a finite list of files.  A path denotes the first entry
carrying it. -/
abbrev Fs := List FileEntry

/-- Look up the file at a path. -/
def fsLookup : Fs → String → Option FileEntry
  | [], _ => none
  | e :: rest, p => if e.path = p then some e else fsLookup rest p

/-- Drop every entry at a path. -/
def fsDelete (fs : Fs) (p : String) : Fs :=
  fs.filter (fun e => e.path != p)

/-- `os.path.exists`. -/
def osPathExists (fs : Fs) (p : String) : Bool :=
  (fsLookup fs p).isSome

/-- Kinds of Python exceptions the code raises or meets. -/
inductive ErrKind where
  | valueError
  | fileNotFoundError
  | osError
  | attributeError
  deriving Repr, DecidableEq

/-- A Python exception: its kind and the text `str(e)` produces. -/
structure PyErr where
  kind : ErrKind
  msg : String
  deriving Repr, DecidableEq

/-- `os.remove`: deletes the file, or raises (`FileNotFoundError` when the
path is absent, an `OSError` such as `PermissionError` when the OS refuses
the deletion). -/
def osRemove (fs : Fs) (p : String) : Except PyErr Fs :=
  match fsLookup fs p with
  | none => .error ⟨.fileNotFoundError, "No such file or directory: " ++ p⟩
  | some e =>
    if e.canRemove then .ok (fsDelete fs p)
    else .error ⟨.osError, "Permission denied: " ++ p⟩

/-- `try: os.remove(p) except Exception: pass` — best-effort deletion, the
error swallowed. -/
def osRemoveBestEffort (fs : Fs) (p : String) : Fs :=
  match osRemove fs p with
  | .ok fs2 => fs2
  | .error _ => fs

/-- One post-processor entry of the yt-dlp options (the source configures a
single `FFmpegExtractAudio` entry). -/
structure Postprocessor where
  key : String
  preferredcodec : String
  preferredquality : String
  deriving Repr, DecidableEq

/-- The yt-dlp option dictionary built by `_get_ydl_opts`. -/
structure YdlOpts where
  format : String
  postprocessors : List Postprocessor
  outtmpl : String
  quiet : Bool
  noWarnings : Bool
  nocheckcertificate : Bool
  ignoreerrors : Bool
  logtostderr : Bool
  extractorRetries : Nat
  retries : Nat
  fragmentRetries : Nat
  skipUnavailableFragments : Bool
  httpHeaders : List (String × String)
  deriving Repr, DecidableEq

/-- `TranscriptionService._get_ydl_opts(temp_file, format_option)`.
`temp_file[:-4]` (the output template, missing the trailing extension the
post-processor appends) is `String.dropRight 4`. -/
def get_ydl_opts (temp_file : String) (format_option : String) : YdlOpts :=
  { format := format_option
    postprocessors := [{ key := "FFmpegExtractAudio"
                         preferredcodec := "mp3"
                         preferredquality := "128" }]
    outtmpl := temp_file.dropRight 4
    quiet := true
    noWarnings := true
    nocheckcertificate := true
    ignoreerrors := false
    logtostderr := false
    extractorRetries := 3
    retries := 3
    fragmentRetries := 3
    skipUnavailableFragments := false
    httpHeaders :=
      [("User-Agent", "Mozilla/5.0 (Windows NT 10.0; Win64; x64) AppleWebKit/537.36 (KHTML, like Gecko) Chrome/120.0.0.0 Safari/537.36"),
       ("Accept", "text/html,application/xhtml+xml,application/xml;q=0.9,image/webp,*/*;q=0.8"),
       ("Accept-Language", "en-US,en;q=0.5"),
       ("Accept-Encoding", "gzip, deflate, br"),
       ("Connection", "keep-alive"),
       ("Upgrade-Insecure-Requests", "1")] }

/-- The external media extractor (`yt_dlp.YoutubeDL(opts)` +
`ydl.download([url])`), a black box: given the options, the url and the
current filesystem it either completes, returning the filesystem it left
behind, or raises, returning the exception and the filesystem it left
behind (a failed attempt may still have written partial files). -/
abbrev Extractor := YdlOpts → String → Fs → Except (PyErr × Fs) Fs

/-- `TranscriptionService._try_download(url, temp_file, format_option)`:
runs the extractor under `try/except Exception`, returning `True` on
completion and `False` on any raise. -/
def try_download (ext : Extractor) (url temp_file format_option : String)
    (fs : Fs) : Bool × Fs :=
  match ext (get_ydl_opts temp_file format_option) url fs with
  | .ok fs2 => (true, fs2)
  | .error (_, fs2) => (false, fs2)

/-- The fixed format-preference list of `download_audio`. -/
def format_options : List String :=
  ["bestaudio/best",
   "worstaudio/worst",
   "bestaudio[ext=m4a]",
   "bestaudio[ext=mp3]",
   "140"]

/-- The `for format_option in format_options: if self._try_download(...):
break` loop with its `else` clause result: `true` iff some attempt
succeeded; attempts run strictly in order and stop at the first success. -/
def download_loop (ext : Extractor) (url temp_file : String) :
    List String → Fs → Bool × Fs
  | [], fs => (false, fs)
  | o :: rest, fs =>
    match try_download ext url temp_file o fs with
    | (true, fs2) => (true, fs2)
    | (false, fs2) => download_loop ext url temp_file rest fs2

/-- The temp-file path `os.path.join(temp_dir, f"audio_{timestamp}.mp3")`. -/
def temp_file_name (temp_dir : String) (timestamp : Nat) : String :=
  temp_dir ++ "/audio_" ++ toString timestamp ++ ".mp3"

/-- The `try:` body of `download_audio`: run the format loop, raise
`ValueError("All download attempts failed")` when it exhausts, check the
output file exists (else `FileNotFoundError`), return the path. -/
def download_audio_body (ext : Extractor) (temp_dir : String)
    (timestamp : Nat) (url : String) (fs : Fs) :
    Except (PyErr × Fs) (String × Fs) :=
  let temp_file := temp_file_name temp_dir timestamp
  match download_loop ext url temp_file format_options fs with
  | (false, fs2) => .error (⟨.valueError, "All download attempts failed"⟩, fs2)
  | (true, fs2) =>
    if osPathExists fs2 temp_file then .ok (temp_file, fs2)
    else .error (⟨.fileNotFoundError, "Downloaded audio file not found"⟩, fs2)

/-- `TranscriptionService.download_audio(url)`.  The `except Exception`
handler deletes `temp_file` and `temp_file[:-4]` when they exist — these two
`os.remove` calls are NOT wrapped in `try/except`, so an error they raise
propagates in place of the original — then re-raises
`ValueError(f"Error downloading audio: {str(e)}")`.  (`temp_file` is always
a non-empty string by the time the handler runs, since `gettempdir` and
`time` are pure inputs of the model, so the `if temp_file:` guard is
always true.) -/
def download_audio (ext : Extractor) (temp_dir : String) (timestamp : Nat)
    (url : String) (fs : Fs) : Except (PyErr × Fs) (String × Fs) :=
  let temp_file := temp_file_name temp_dir timestamp
  match download_audio_body ext temp_dir timestamp url fs with
  | .ok r => .ok r
  | .error (e, fs1) =>
    match (if osPathExists fs1 temp_file then osRemove fs1 temp_file else .ok fs1 :
        Except PyErr Fs) with
    | .error e2 => .error (e2, fs1)
    | .ok fs2 =>
      match (if osPathExists fs2 (temp_file.dropRight 4) then
          osRemove fs2 (temp_file.dropRight 4) else .ok fs2 : Except PyErr Fs) with
      | .error e2 => .error (e2, fs2)
      | .ok fs3 =>
        .error (⟨.valueError, "Error downloading audio: " ++ e.msg⟩, fs3)

/-- The compute device chosen in `__init__`
(`"cuda" if torch.cuda.is_available() else "cpu"`). -/
inductive Device where
  | cuda
  | cpu
  deriving Repr, DecidableEq

/-- The mutable fields of a `TranscriptionService` instance that
`load_model` reads and writes.  `H` is the opaque type of whisper model
handles. -/
structure ServiceState (H : Type) where
  model : Option H
  modelSize : String
  device : Device
  modelLoaded : Bool
  deriving Repr, DecidableEq

/-- `TranscriptionService.__init__` (with `torch.cuda.is_available()` a pure
input). -/
def service_init (H : Type) (cudaAvailable : Bool) : ServiceState H :=
  { model := none
    modelSize := "tiny"
    device := if cudaAvailable then .cuda else .cpu
    modelLoaded := false }

/-- The external `whisper.load_model(size, device)` call, a black box
yielding a handle. -/
abbrev Loader (H : Type) := String → Device → H

/-- `TranscriptionService.load_model()`: when `_model_loaded` is false,
invoke the loader and cache the handle; then `return self.model`.  The
third component counts how many times the underlying loader was invoked
during this call (0 or 1), instrumenting the "no second load" property. -/
def load_model (loader : Loader H) (s : ServiceState H) :
    Option H × ServiceState H × Nat :=
  if s.modelLoaded then (s.model, s, 0)
  else
    let m := loader s.modelSize s.device
    let s2 := { s with model := some m, modelLoaded := true }
    (s2.model, s2, 1)

/-- The keyword arguments of `model.transcribe(audio_path, fp16=False,
language="en", task="transcribe")`. -/
structure TranscribeArgs where
  path : String
  fp16 : Bool
  language : String
  task : String
  deriving Repr, DecidableEq

/-- The result dictionary of a successful `model.transcribe` call: the
code only reads its `"text"` field. -/
structure TranscribeResult where
  text : String
  deriving Repr, DecidableEq

/-- The external `model.transcribe(...)` call, a black box reading the
filesystem: it returns a result or raises. -/
abbrev Transcriber (H : Type) := H → TranscribeArgs → Fs → Except PyErr TranscribeResult

/-- The whole mutable world a `TranscriptionService` call touches: the
filesystem, the instance state, and the instrumentation counter of
underlying `whisper.load_model` invocations. -/
structure World (H : Type) where
  fs : Fs
  svc : ServiceState H
  loadCalls : Nat
  deriving Repr, DecidableEq

/-- The `try:` body of `transcribe_audio`: existence check
(`FileNotFoundError`), emptiness check (`ValueError`), `load_model`, the
model invocation, then best-effort `os.remove` of the audio file and
`return result["text"]`.  (Calling `.transcribe` on a `None` model would be
an `AttributeError`; with a total loader this branch is unreachable.) -/
def transcribe_audio_body (loader : Loader H) (tr : Transcriber H)
    (audio_path : String) (w : World H) :
    Except (PyErr × World H) (String × World H) :=
  match fsLookup w.fs audio_path with
  | none =>
    .error (⟨.fileNotFoundError, "Audio file not found at " ++ audio_path⟩, w)
  | some entry =>
    if entry.size = 0 then
      .error (⟨.valueError, "Audio file is empty"⟩, w)
    else
      match load_model loader w.svc with
      | (mOpt, svc2, n) =>
        let w1 : World H := { w with svc := svc2, loadCalls := w.loadCalls + n }
        match mOpt with
        | none =>
          .error (⟨.attributeError,
            "NoneType object has no attribute transcribe"⟩, w1)
        | some m =>
          match tr m { path := audio_path, fp16 := false,
                       language := "en", task := "transcribe" } w1.fs with
          | .error e => .error (e, w1)
          | .ok result =>
            let fs2 := osRemoveBestEffort w1.fs audio_path
            .ok (result.text, { w1 with fs := fs2 })

/-- `TranscriptionService.transcribe_audio(audio_path)`.  The
`except Exception` handler best-effort deletes the audio file when it
exists (this `os.remove` IS wrapped in `try/except: pass`), then re-raises
`ValueError(f"Error transcribing audio: {str(e)}")`. -/
def transcribe_audio (loader : Loader H) (tr : Transcriber H)
    (audio_path : String) (w : World H) :
    Except (PyErr × World H) (String × World H) :=
  match transcribe_audio_body loader tr audio_path w with
  | .ok r => .ok r
  | .error (e, w1) =>
    let fs2 := if osPathExists w1.fs audio_path then
                 osRemoveBestEffort w1.fs audio_path
               else w1.fs
    .error (⟨.valueError, "Error transcribing audio: " ++ e.msg⟩,
            { w1 with fs := fs2 })

/-- `TranscriptionService.process_video(url)`: `download_audio`, the
`if not audio_path:` falsy check, `transcribe_audio`, and the
`except Exception` handler that best-effort deletes `audio_path` when it is
set and exists, then re-raises
`ValueError(f"Error processing video: {str(e)}")`.  When `download_audio`
raises, `audio_path` is still `None`, so the handler skips the cleanup. -/
def process_video (ext : Extractor) (loader : Loader H) (tr : Transcriber H)
    (temp_dir : String) (timestamp : Nat) (url : String) (w : World H) :
    Except (PyErr × World H) (String × World H) :=
  match download_audio ext temp_dir timestamp url w.fs with
  | .error (e, fs1) =>
    .error (⟨.valueError, "Error processing video: " ++ e.msg⟩,
            { w with fs := fs1 })
  | .ok (audio_path, fs1) =>
    let w1 : World H := { w with fs := fs1 }
    if audio_path = "" then
      -- `raise ValueError("Failed to download audio")`, caught by the
      -- handler; `audio_path` is falsy there, so no cleanup is attempted.
      .error (⟨.valueError, "Error processing video: Failed to download audio"⟩, w1)
    else
      match transcribe_audio loader tr audio_path w1 with
      | .ok r => .ok r
      | .error (e, w2) =>
        let fs3 := if osPathExists w2.fs audio_path then
                     osRemoveBestEffort w2.fs audio_path
                   else w2.fs
        .error (⟨.valueError, "Error processing video: " ++ e.msg⟩,
                { w2 with fs := fs3 })

/-- `process_video` with the `if not audio_path:` check removed — used to
state that the "Failed to download audio" branch is unreachable. -/
def process_video_unchecked (ext : Extractor) (loader : Loader H)
    (tr : Transcriber H) (temp_dir : String) (timestamp : Nat) (url : String)
    (w : World H) : Except (PyErr × World H) (String × World H) :=
  match download_audio ext temp_dir timestamp url w.fs with
  | .error (e, fs1) =>
    .error (⟨.valueError, "Error processing video: " ++ e.msg⟩,
            { w with fs := fs1 })
  | .ok (audio_path, fs1) =>
    let w1 : World H := { w with fs := fs1 }
    match transcribe_audio loader tr audio_path w1 with
    | .ok r => .ok r
    | .error (e, w2) =>
      let fs3 := if osPathExists w2.fs audio_path then
                   osRemoveBestEffort w2.fs audio_path
                 else w2.fs
      .error (⟨.valueError, "Error processing video: " ++ e.msg⟩,
              { w2 with fs := fs3 })

/-! ### Stub collaborators used as concrete instances -/

/-- An extractor stub that always raises and writes nothing. -/
def extFailKeep : Extractor := fun _ _ fs => .error (⟨.valueError, "boom"⟩, fs)

/-- An extractor stub that always raises and leaves a single undeletable
partial file at the expected output path of timestamp 1. -/
def extPlantBad : Extractor := fun _ _ _ =>
  .error (⟨.valueError, "boom"⟩, [⟨"/tmp/audio_1.mp3", 3, false⟩])

/-- An extractor stub that always raises and leaves a single undeletable
partial file at the expected output path of timestamp 2. -/
def extPlantBad2 : Extractor := fun _ _ _ =>
  .error (⟨.valueError, "boom"⟩, [⟨"/tmp/audio_2.mp3", 3, false⟩])

/-- An extractor stub that reports success but leaves only an undeletable
intermediate at the pre-extension path of timestamp 3, nothing at the
expected output path. -/
def extPlantPre : Extractor := fun _ _ _ => .ok [⟨"/tmp/audio_3", 3, false⟩]

/-- An extractor stub that reports success and writes nothing. -/
def extOkKeep : Extractor := fun _ _ fs => .ok fs

/-- An extractor stub that writes the expected output file (its output
template plus the mp3 extension the post-processor appends) and succeeds. -/
def extWriteOut : Extractor := fun opts _ fs =>
  .ok (⟨opts.outtmpl ++ ".mp3", 10, true⟩ :: fs)

/-- A loader stub yielding the handle `7`. -/
def loader0 : Loader Nat := fun _ _ => 7

/-- A model stub whose transcription result has text field `"hello"`. -/
def trHello : Transcriber Nat := fun _ _ _ => .ok ⟨"hello"⟩

/-- A world holding one undeletable non-empty audio file. -/
def w0 : World Nat :=
  { fs := [⟨"/tmp/a.mp3", 5, false⟩], svc := service_init Nat false, loadCalls := 0 }

/-- A world holding one deletable non-empty audio file. -/
def w1ok : World Nat :=
  { fs := [⟨"/tmp/b.mp3", 5, true⟩], svc := service_init Nat false, loadCalls := 0 }

/-! ### Basic filesystem lemmas -/

theorem fsLookup_mem : ∀ {fs : Fs} {p : String} {e : FileEntry},
    fsLookup fs p = some e → e ∈ fs
  | a :: rest, p, e, h => by
    by_cases hp : a.path = p
    · rw [fsLookup, if_pos hp] at h
      injection h with h2
      subst h2
      exact List.mem_cons_self a rest
    · rw [fsLookup, if_neg hp] at h
      exact List.mem_cons_of_mem a (fsLookup_mem h)

theorem mem_fsDelete {fs : Fs} {p : String} {e : FileEntry}
    (h : e ∈ fsDelete fs p) : e ∈ fs :=
  (List.mem_filter.mp h).1

theorem fsLookup_eq_none_iff {fs : Fs} {p : String} :
    fsLookup fs p = none ↔ ∀ e ∈ fs, e.path ≠ p := by
  induction fs with
  | nil => simp [fsLookup]
  | cons a rest ih =>
    by_cases hp : a.path = p
    · simp [fsLookup, hp]
    · simp [fsLookup, hp, ih]

theorem fsLookup_fsDelete_self (fs : Fs) (p : String) :
    fsLookup (fsDelete fs p) p = none := by
  rw [fsLookup_eq_none_iff]
  intro e he
  have := (List.mem_filter.mp he).2
  simpa using this

theorem osPathExists_false_iff {fs : Fs} {p : String} :
    osPathExists fs p = false ↔ fsLookup fs p = none := by
  unfold osPathExists
  cases fsLookup fs p <;> simp

/-- The temp-file path is never the empty string: its name always carries
the `audio_` stem and the `.mp3` extension. -/
theorem temp_file_name_ne_empty (temp_dir : String) (timestamp : Nat) :
    temp_file_name temp_dir timestamp ≠ "" := by
  intro h
  have hlen := congrArg String.length h
  rw [temp_file_name, String.length_append, String.length_append,
    String.length_append] at hlen
  have h1 : ("/audio_" : String).length = 7 := rfl
  have h2 : (".mp3" : String).length = 4 := rfl
  have h3 : ("" : String).length = 0 := rfl
  omega

/-! ### Behaviour of the download_audio failure handler -/

/-- One guarded deletion of the `download_audio` handler completes without
raising when every file still on disk is deletable, and afterwards the
path is gone. -/
theorem cleanup_step (fs : Fs) (p : String)
    (hrem : ∀ ent ∈ fs, ent.canRemove = true) :
    ∃ fs2, (if osPathExists fs p then osRemove fs p else .ok fs) = .ok fs2 ∧
      fsLookup fs2 p = none ∧ ∀ e ∈ fs2, e ∈ fs := by
  by_cases h : osPathExists fs p = true
  · rw [if_pos h]
    rcases hsome : fsLookup fs p with _ | ent
    · rw [osPathExists, hsome] at h
      simp at h
    · have hm := fsLookup_mem hsome
      refine ⟨fsDelete fs p, ?_, fsLookup_fsDelete_self fs p,
        fun e he => mem_fsDelete he⟩
      simp [osRemove, hsome, hrem ent hm]
  · rw [if_neg h]
    refine ⟨fs, rfl, ?_, fun e he => he⟩
    have : osPathExists fs p = false := by
      cases hb : osPathExists fs p
      · rfl
      · exact absurd hb h
    exact osPathExists_false_iff.mp this

/-- The `except Exception` handler of `download_audio`, on the assumption
that every file the failed body left behind is deletable: both temp paths
end up absent and the original error is re-raised wrapped in
`ValueError("Error downloading audio: ...")`. -/
theorem download_audio_of_body_error (ext : Extractor) (temp_dir url : String)
    (timestamp : Nat) (fs fs1 : Fs) (e : PyErr)
    (hbody : download_audio_body ext temp_dir timestamp url fs = .error (e, fs1))
    (hrem : ∀ ent ∈ fs1, ent.canRemove = true) :
    ∃ fs3, download_audio ext temp_dir timestamp url fs =
        .error (⟨.valueError, "Error downloading audio: " ++ e.msg⟩, fs3) ∧
      osPathExists fs3 (temp_file_name temp_dir timestamp) = false ∧
      osPathExists fs3 ((temp_file_name temp_dir timestamp).dropRight 4) = false := by
  obtain ⟨fs2, heq2, hnone2, hsub2⟩ :=
    cleanup_step fs1 (temp_file_name temp_dir timestamp) hrem
  obtain ⟨fs3, heq3, hnone3, hsub3⟩ :=
    cleanup_step fs2 ((temp_file_name temp_dir timestamp).dropRight 4)
      (fun ent h2 => hrem ent (hsub2 ent h2))
  refine ⟨fs3, ?_, ?_, ?_⟩
  · unfold download_audio
    rw [hbody]
    dsimp only
    rw [heq2]
    dsimp only
    rw [heq3]
  · rw [osPathExists_false_iff, fsLookup_eq_none_iff]
    intro ent h3
    exact (fsLookup_eq_none_iff.mp hnone2) ent (hsub3 ent h3)
  · rw [osPathExists_false_iff]
    exact hnone3

/-- A stub extractor that always raises without writing leaves the format
loop reporting failure with the filesystem untouched. -/
theorem download_loop_const_of_stub (ext : Extractor) (url tf : String)
    (hstub : ∀ opts u f, ∃ err, ext opts u f = .error (err, f)) :
    ∀ (opts : List String) (f : Fs), download_loop ext url tf opts f = (false, f) := by
  intro opts
  induction opts with
  | nil => intro f; rfl
  | cons o rest ih =>
    intro f
    obtain ⟨err, herr⟩ := hstub (get_ydl_opts tf o) url f
    have ht : try_download ext url tf o f = (false, f) := by
      unfold try_download
      rw [herr]
    rw [download_loop, ht]
    exact ih f

/-- A successful `download_audio_body` returns exactly the constructed
temp-file path. -/
theorem download_audio_body_ok_path {ext : Extractor} {temp_dir url : String}
    {timestamp : Nat} {fs : Fs} {q : String} {fsq : Fs}
    (hb : download_audio_body ext temp_dir timestamp url fs = .ok (q, fsq)) :
    q = temp_file_name temp_dir timestamp := by
  unfold download_audio_body at hb
  dsimp only at hb
  rcases hl : download_loop ext url (temp_file_name temp_dir timestamp)
      format_options fs with ⟨b, fsb⟩
  rw [hl] at hb
  cases b
  · simp at hb
  · dsimp only at hb
    by_cases hex : osPathExists fsb (temp_file_name temp_dir timestamp) = true
    · rw [if_pos hex] at hb
      simp only [Except.ok.injEq, Prod.mk.injEq] at hb
      exact hb.1.symm
    · rw [if_neg hex] at hb
      simp at hb

/-- A successful `download_audio` returns exactly the constructed
temp-file path (the failure handler never returns normally). -/
theorem download_audio_ok_sound {ext : Extractor} {temp_dir url : String}
    {timestamp : Nat} {fs : Fs} {p : String} {fs2 : Fs}
    (h : download_audio ext temp_dir timestamp url fs = .ok (p, fs2)) :
    p = temp_file_name temp_dir timestamp := by
  unfold download_audio at h
  rcases hb : download_audio_body ext temp_dir timestamp url fs with ⟨e, fs1⟩ | ⟨q, fsq⟩
  · rw [hb] at h
    dsimp only at h
    rcases h1 : (if osPathExists fs1 (temp_file_name temp_dir timestamp) = true
        then osRemove fs1 (temp_file_name temp_dir timestamp)
        else Except.ok fs1) with e2 | fsA
    · rw [h1] at h
      simp at h
    · rw [h1] at h
      dsimp only at h
      rcases h2 : (if osPathExists fsA
            ((temp_file_name temp_dir timestamp).dropRight 4) = true
          then osRemove fsA ((temp_file_name temp_dir timestamp).dropRight 4)
          else Except.ok fsA) with e2 | fsB
      · rw [h2] at h
        simp at h
      · rw [h2] at h
        simp at h
  · rw [hb] at h
    dsimp only at h
    simp only [Except.ok.injEq, Prod.mk.injEq] at h
    obtain ⟨h1, h2⟩ := h
    subst h1
    exact download_audio_body_ok_path hb

/-! ### The claims -/

/-- C1 (counterexample): the claim that the cleanup deletions in the
`download_audio` failure handler swallow their own errors is false: with an
extractor that fails every attempt and leaves an undeletable partial file
at the expected output path, the error escaping `download_audio` is the
`PermissionError`-style deletion error, not the descriptive
`ValueError("Error downloading audio: ...")` wrap of the original cause —
the deletion error masks the original failure. -/
theorem C1_cleanup_error_masks_original :
    download_audio_body extPlantBad "/tmp" 1 "u" [] =
      .error (⟨.valueError, "All download attempts failed"⟩,
        [⟨"/tmp/audio_1.mp3", 3, false⟩]) ∧
    download_audio extPlantBad "/tmp" 1 "u" [] =
      .error (⟨.osError, "Permission denied: /tmp/audio_1.mp3"⟩,
        [⟨"/tmp/audio_1.mp3", 3, false⟩]) ∧
    (⟨.osError, "Permission denied: /tmp/audio_1.mp3"⟩ : PyErr) ≠
      ⟨.valueError, "Error downloading audio: All download attempts failed"⟩ := by
  refine ⟨rfl, rfl, by decide⟩

/-- C1 (amended): for every failure inside `download_audio`, the cleanup
step attempts deletion of both the expected output file and the
pre-extension path and re-raises a single descriptive download error
wrapping the original cause — provided those deletions do not themselves
raise (here: every file left on disk is deletable).  The deletions are NOT
guarded by `try/except`, so this proviso is necessary. -/
theorem C1_cleanup_and_wrap_amended (ext : Extractor) (temp_dir url : String)
    (timestamp : Nat) (fs fs1 : Fs) (e : PyErr)
    (hbody : download_audio_body ext temp_dir timestamp url fs = .error (e, fs1))
    (hrem : ∀ ent ∈ fs1, ent.canRemove = true) :
    ∃ fs3, download_audio ext temp_dir timestamp url fs =
        .error (⟨.valueError, "Error downloading audio: " ++ e.msg⟩, fs3) ∧
      osPathExists fs3 (temp_file_name temp_dir timestamp) = false ∧
      osPathExists fs3 ((temp_file_name temp_dir timestamp).dropRight 4) = false :=
  download_audio_of_body_error ext temp_dir url timestamp fs fs1 e hbody hrem

/-- C1 (witness): the amended theorem at a concrete always-failing
extractor that writes nothing, on an empty filesystem. -/
theorem C1_cleanup_and_wrap_amended_wit :
    ∃ fs3, download_audio extFailKeep "/tmp" 1 "u" [] =
        .error (⟨.valueError,
          "Error downloading audio: " ++ "All download attempts failed"⟩, fs3) ∧
      osPathExists fs3 (temp_file_name "/tmp" 1) = false ∧
      osPathExists fs3 ((temp_file_name "/tmp" 1).dropRight 4) = false :=
  C1_cleanup_and_wrap_amended extFailKeep "/tmp" "u" 1 [] []
    ⟨.valueError, "All download attempts failed"⟩ rfl (by simp)

/-- C2 (counterexample): with every format option failing, the message of
the escaping error need not be the wrapped "All download attempts failed"
and a file can be left at the expected output path: an extractor whose
failed attempts leave an undeletable partial file there makes the handler
deletion raise, which masks the exhaustion error and leaves the file. -/
theorem C2_exhaustion_error_masked :
    (download_loop extPlantBad2 "u" (temp_file_name "/tmp" 2) format_options []).1
        = false ∧
    download_audio extPlantBad2 "/tmp" 2 "u" [] =
      .error (⟨.osError, "Permission denied: /tmp/audio_2.mp3"⟩,
        [⟨"/tmp/audio_2.mp3", 3, false⟩]) ∧
    osPathExists [⟨"/tmp/audio_2.mp3", 3, false⟩] (temp_file_name "/tmp" 2) = true := by
  refine ⟨rfl, rfl, rfl⟩

/-- C2 (amended): for every URL on which all configured format options
fail, `download_audio` fails with
`ValueError("Error downloading audio: All download attempts failed")` and
leaves no file at the expected output path or its pre-extension variant —
provided the cleanup deletions succeed (every file the failed attempts
left behind is deletable). -/
theorem C2_exhaustion_amended (ext : Extractor) (temp_dir url : String)
    (timestamp : Nat) (fs fs1 : Fs)
    (hloop : download_loop ext url (temp_file_name temp_dir timestamp)
        format_options fs = (false, fs1))
    (hrem : ∀ ent ∈ fs1, ent.canRemove = true) :
    ∃ fs3, download_audio ext temp_dir timestamp url fs =
        .error (⟨.valueError,
          "Error downloading audio: All download attempts failed"⟩, fs3) ∧
      osPathExists fs3 (temp_file_name temp_dir timestamp) = false ∧
      osPathExists fs3 ((temp_file_name temp_dir timestamp).dropRight 4) = false := by
  have hbody : download_audio_body ext temp_dir timestamp url fs =
      .error (⟨.valueError, "All download attempts failed"⟩, fs1) := by
    unfold download_audio_body
    dsimp only
    rw [hloop]
  exact download_audio_of_body_error ext temp_dir url timestamp fs fs1
    ⟨.valueError, "All download attempts failed"⟩ hbody hrem

/-- C2 (witness): the amended theorem at a concrete always-failing
extractor that writes nothing, on an empty filesystem. -/
theorem C2_exhaustion_amended_wit :
    ∃ fs3, download_audio extFailKeep "/tmp" 2 "u" [] =
        .error (⟨.valueError,
          "Error downloading audio: All download attempts failed"⟩, fs3) ∧
      osPathExists fs3 (temp_file_name "/tmp" 2) = false ∧
      osPathExists fs3 ((temp_file_name "/tmp" 2).dropRight 4) = false :=
  C2_exhaustion_amended extFailKeep "/tmp" "u" 2 [] [] rfl (by simp)

/-- C3: `download_audio` tries the format options in the fixed order
best-audio-or-best, worst-audio-or-worst, best-audio-as-m4a,
best-audio-as-mp3, the numeric fallback code `140`; whenever an attempt
succeeds, the loop short-circuits: the result is independent of every
later format option (none is attempted), and when an attempt fails the
loop proceeds to exactly the remaining options in order. -/
theorem C3_format_order_and_short_circuit :
    format_options =
      ["bestaudio/best", "worstaudio/worst", "bestaudio[ext=m4a]",
       "bestaudio[ext=mp3]", "140"] ∧
    (∀ (ext : Extractor) (url temp_file fmt : String) (rest : List String) (fs : Fs),
      (try_download ext url temp_file fmt fs).1 = true →
      download_loop ext url temp_file (fmt :: rest) fs =
        (true, (try_download ext url temp_file fmt fs).2)) ∧
    (∀ (ext : Extractor) (url temp_file fmt : String) (rest : List String) (fs : Fs),
      (try_download ext url temp_file fmt fs).1 = false →
      download_loop ext url temp_file (fmt :: rest) fs =
        download_loop ext url temp_file rest (try_download ext url temp_file fmt fs).2) := by
  refine ⟨rfl, ?_, ?_⟩
  · intro ext url temp_file fmt rest fs h
    rw [download_loop]
    rcases ht : try_download ext url temp_file fmt fs with ⟨b, fs2⟩
    rw [ht] at h
    dsimp only at h
    subst h
    rfl
  · intro ext url temp_file fmt rest fs h
    rw [download_loop]
    rcases ht : try_download ext url temp_file fmt fs with ⟨b, fs2⟩
    rw [ht] at h
    dsimp only at h
    subst h
    rfl

/-- C3 (witness): with an extractor succeeding on the first attempt, the
full loop stops at the first option. -/
theorem C3_format_order_and_short_circuit_wit :
    (try_download extOkKeep "u" "/tmp/audio_9.mp3" "bestaudio/best" []).1 = true ∧
    download_loop extOkKeep "u" "/tmp/audio_9.mp3"
        ("bestaudio/best" :: ["worstaudio/worst", "bestaudio[ext=m4a]",
          "bestaudio[ext=mp3]", "140"]) [] =
      (true, (try_download extOkKeep "u" "/tmp/audio_9.mp3" "bestaudio/best" []).2) :=
  ⟨rfl, C3_format_order_and_short_circuit.2.1 extOkKeep "u" "/tmp/audio_9.mp3"
    "bestaudio/best" ["worstaudio/worst", "bestaudio[ext=m4a]",
      "bestaudio[ext=mp3]", "140"] [] rfl⟩

/-- C4: for a path absent from disk, `transcribe_audio` fails with the
wrapped file-not-found message, and for an existing zero-byte file it
fails with the wrapped empty-file message; in both cases the result is
the same for every loader and every model stub (neither the loader nor
the model is invoked) and the world records no loader call. -/
theorem C4_transcribe_validation_failures {H : Type} (loader : Loader H)
    (tr : Transcriber H) (p : String) (w : World H) :
    (fsLookup w.fs p = none →
      transcribe_audio loader tr p w =
        .error (⟨.valueError,
          "Error transcribing audio: Audio file not found at " ++ p⟩, w)) ∧
    (∀ entry : FileEntry, fsLookup w.fs p = some entry → entry.size = 0 →
      transcribe_audio loader tr p w =
        .error (⟨.valueError, "Error transcribing audio: Audio file is empty"⟩,
          { w with fs := osRemoveBestEffort w.fs p })) := by
  constructor
  · intro h
    unfold transcribe_audio transcribe_audio_body
    rw [h]
    dsimp only
    have hex : osPathExists w.fs p = false := osPathExists_false_iff.mpr h
    simp [hex]
    rw [← String.append_assoc]
    rfl
  · intro entry hsome hsize
    unfold transcribe_audio transcribe_audio_body
    rw [hsome]
    dsimp only
    have hex : osPathExists w.fs p = true := by simp [osPathExists, hsome]
    simp [hsize, hex]

/-- C4 (witness): the theorem at a missing path and at a zero-byte file. -/
theorem C4_transcribe_validation_failures_wit :
    transcribe_audio loader0 trHello "/nope" (⟨[], service_init Nat false, 0⟩ : World Nat) =
      .error (⟨.valueError,
        "Error transcribing audio: Audio file not found at " ++ "/nope"⟩,
        ⟨[], service_init Nat false, 0⟩) ∧
    transcribe_audio loader0 trHello "/tmp/e.mp3"
        (⟨[⟨"/tmp/e.mp3", 0, true⟩], service_init Nat false, 0⟩ : World Nat) =
      .error (⟨.valueError, "Error transcribing audio: Audio file is empty"⟩,
        ⟨osRemoveBestEffort [⟨"/tmp/e.mp3", 0, true⟩] "/tmp/e.mp3",
          service_init Nat false, 0⟩) :=
  ⟨(C4_transcribe_validation_failures loader0 trHello "/nope"
      ⟨[], service_init Nat false, 0⟩).1 rfl,
   (C4_transcribe_validation_failures loader0 trHello "/tmp/e.mp3"
      ⟨[⟨"/tmp/e.mp3", 0, true⟩], service_init Nat false, 0⟩).2
      ⟨"/tmp/e.mp3", 0, true⟩ rfl rfl⟩

/-- C5: every error escaping `process_video` is a `ValueError` that wraps
the original cause: its message is "Error processing video: " followed by
the exact message of the failing step (the download error when
`download_audio` raised, the transcription error when `download_audio`
returned a path and `transcribe_audio` raised — these are the only two
failure sources, the falsy-path branch being unreachable); and in the
end-to-end scenario of a stub extractor that fails all five format options
without writing files (run against a clean temp directory), the escaping
message is exactly "Error processing video: Error downloading audio: All
download attempts failed", which contains both "downloading audio" and
"All download attempts failed". -/
theorem C5_process_video_wraps_errors :
    (∀ (H : Type) (ext : Extractor) (loader : Loader H) (tr : Transcriber H)
      (temp_dir url : String) (timestamp : Nat) (w : World H) (e : PyErr)
      (w2 : World H),
      process_video ext loader tr temp_dir timestamp url w = .error (e, w2) →
      e.kind = .valueError ∧
      ((∃ e1 fs1, download_audio ext temp_dir timestamp url w.fs = .error (e1, fs1) ∧
          e.msg = "Error processing video: " ++ e1.msg) ∨
       (∃ p fs1 e2 w3, download_audio ext temp_dir timestamp url w.fs = .ok (p, fs1) ∧
          transcribe_audio loader tr p { w with fs := fs1 } = .error (e2, w3) ∧
          e.msg = "Error processing video: " ++ e2.msg))) ∧
    (∀ (H : Type) (ext : Extractor) (loader : Loader H) (tr : Transcriber H)
      (temp_dir url : String) (timestamp : Nat) (w : World H),
      (∀ opts u f, ∃ err, ext opts u f = .error (err, f)) →
      osPathExists w.fs (temp_file_name temp_dir timestamp) = false →
      osPathExists w.fs ((temp_file_name temp_dir timestamp).dropRight 4) = false →
      process_video ext loader tr temp_dir timestamp url w =
        .error (⟨.valueError,
          "Error processing video: Error downloading audio: All download attempts failed"⟩,
          w)) := by
  constructor
  · intro H ext loader tr temp_dir url timestamp w e w2 h
    unfold process_video at h
    rcases hd : download_audio ext temp_dir timestamp url w.fs with ⟨e1, fs1⟩ | ⟨p, fs1⟩
    · rw [hd] at h
      dsimp only at h
      simp only [Except.error.injEq, Prod.mk.injEq] at h
      obtain ⟨he, hw⟩ := h
      subst he
      exact ⟨rfl, Or.inl ⟨e1, fs1, rfl, rfl⟩⟩
    · rw [hd] at h
      dsimp only at h
      have hp : p ≠ "" := by
        rw [download_audio_ok_sound hd]
        exact temp_file_name_ne_empty temp_dir timestamp
      rw [if_neg hp] at h
      rcases ht : transcribe_audio loader tr p { w with fs := fs1 } with ⟨e2, w3⟩ | r
      · rw [ht] at h
        dsimp only at h
        simp only [Except.error.injEq, Prod.mk.injEq] at h
        obtain ⟨he, hw⟩ := h
        subst he
        exact ⟨rfl, Or.inr ⟨p, fs1, e2, w3, rfl, ht, rfl⟩⟩
      · rw [ht] at h
        simp at h
  · intro H ext loader tr temp_dir url timestamp w hstub habs1 habs2
    have hloop := download_loop_const_of_stub ext url
      (temp_file_name temp_dir timestamp) hstub
    have hb : download_audio ext temp_dir timestamp url w.fs =
        .error (⟨.valueError,
          "Error downloading audio: All download attempts failed"⟩, w.fs) := by
      unfold download_audio download_audio_body
      dsimp only
      rw [hloop format_options w.fs]
      dsimp only
      rw [if_neg (by simp [habs1])]
      dsimp only
      rw [if_neg (by simp [habs2])]
      dsimp only
      rfl
    unfold process_video
    rw [hb]
    rfl

/-- C5 (witness): both parts at the concrete exhaustion scenario (stub
extractor failing all options, stub loader and model, clean world): the
escaping error wraps the message of the failing download step, and the
end-to-end message is the exact double wrap. -/
theorem C5_process_video_wraps_errors_wit :
    (ErrKind.valueError = ErrKind.valueError ∧
      ((∃ e1 fs1, download_audio extFailKeep "/tmp" 5 "u"
            ((⟨[], service_init Nat false, 0⟩ : World Nat)).fs = .error (e1, fs1) ∧
          ("Error processing video: Error downloading audio: All download attempts failed"
              : String) =
            "Error processing video: " ++ e1.msg) ∨
       (∃ p fs1 e2 w3, download_audio extFailKeep "/tmp" 5 "u"
            ((⟨[], service_init Nat false, 0⟩ : World Nat)).fs = .ok (p, fs1) ∧
          transcribe_audio loader0 trHello p
              { (⟨[], service_init Nat false, 0⟩ : World Nat) with fs := fs1 } =
            .error (e2, w3) ∧
          ("Error processing video: Error downloading audio: All download attempts failed"
              : String) =
            "Error processing video: " ++ e2.msg))) ∧
    process_video extFailKeep loader0 trHello "/tmp" 5 "u"
        ⟨[], service_init Nat false, 0⟩ =
      .error (⟨.valueError,
        "Error processing video: Error downloading audio: All download attempts failed"⟩,
        ⟨[], service_init Nat false, 0⟩) :=
  ⟨C5_process_video_wraps_errors.1 Nat extFailKeep loader0 trHello "/tmp" "u" 5
      ⟨[], service_init Nat false, 0⟩
      ⟨.valueError,
        "Error processing video: Error downloading audio: All download attempts failed"⟩
      ⟨[], service_init Nat false, 0⟩ rfl,
   C5_process_video_wraps_errors.2 Nat extFailKeep loader0 trHello "/tmp" "u" 5
      ⟨[], service_init Nat false, 0⟩
      (fun _ _ _ => ⟨⟨.valueError, "boom"⟩, rfl⟩) rfl rfl⟩

/-- C6 (counterexample): a successful `transcribe_audio` call can leave
the source audio file on disk: when the OS refuses the deletion, the
`try/except: pass` around `os.remove` swallows the error and the call
still returns the text, with the file persisting. -/
theorem C6_success_can_leave_file :
    transcribe_audio loader0 trHello "/tmp/a.mp3" w0 =
      .ok ("hello",
        { fs := [⟨"/tmp/a.mp3", 5, false⟩],
          svc := { model := some 7, modelSize := "tiny", device := .cpu,
                   modelLoaded := true },
          loadCalls := 1 }) ∧
    osPathExists [⟨"/tmp/a.mp3", 5, false⟩] "/tmp/a.mp3" = true := ⟨rfl, rfl⟩

/-- C6 (amended): after a successful `transcribe_audio` the source audio
file no longer exists on disk — provided the OS permits the deletion
(here: every file of the initial filesystem is deletable); the deletion is
best-effort, so a refused deletion leaves the file behind without failing
the call. -/
theorem C6_success_deletes_file_amended {H : Type} (loader : Loader H)
    (tr : Transcriber H) (p : String) (w : World H) (text : String)
    (w2 : World H)
    (hok : transcribe_audio loader tr p w = .ok (text, w2))
    (hrem : ∀ ent ∈ w.fs, ent.canRemove = true) :
    osPathExists w2.fs p = false := by
  unfold transcribe_audio at hok
  rcases hb : transcribe_audio_body loader tr p w with ⟨e, w1⟩ | ⟨t1, w1⟩
  · rw [hb] at hok
    simp at hok
  · rw [hb] at hok
    dsimp only at hok
    have hw : w1 = w2 := by
      simp at hok
      exact hok.2
    subst hw
    unfold transcribe_audio_body at hb
    rcases hl : fsLookup w.fs p with _ | entry
    · rw [hl] at hb
      simp at hb
    · rw [hl] at hb
      dsimp only at hb
      by_cases hs : entry.size = 0
      · rw [if_pos hs] at hb
        simp at hb
      · rw [if_neg hs] at hb
        rcases hlm : load_model loader w.svc with ⟨mOpt, svc2, n⟩
        rw [hlm] at hb
        dsimp only at hb
        rcases mOpt with _ | m
        · simp at hb
        · dsimp only at hb
          rcases htr : tr m ⟨p, false, "en", "transcribe"⟩ w.fs with e2 | result
          · rw [htr] at hb
            simp at hb
          · rw [htr] at hb
            dsimp only at hb
            have hfs : w1.fs = osRemoveBestEffort w.fs p := by
              simp at hb
              rw [← hb.2]
            rw [osPathExists_false_iff, hfs]
            simp [osRemoveBestEffort, osRemove, hl,
              hrem entry (fsLookup_mem hl), fsLookup_fsDelete_self]

/-- C6 (witness): the amended theorem on a world whose single audio file
is deletable: after the successful call the file is gone. -/
theorem C6_success_deletes_file_amended_wit :
    osPathExists ((⟨[], ⟨some 7, "tiny", .cpu, true⟩, 1⟩ : World Nat)).fs
      "/tmp/b.mp3" = false :=
  C6_success_deletes_file_amended loader0 trHello "/tmp/b.mp3" w1ok "hello" _ rfl
    (by intro ent h; simp [w1ok] at h; subst h; rfl)

/-- C7 (counterexample): when an attempt reports success but leaves no
file at the expected output path, the escaping error need not be the
"file not found" download error: if the handler meets an undeletable
intermediate at the pre-extension path, its unguarded deletion raises and
masks the `FileNotFoundError`. -/
theorem C7_missing_output_error_masked :
    (try_download extPlantPre "u" (temp_file_name "/tmp" 3) "bestaudio/best" []).1
        = true ∧
    osPathExists [⟨"/tmp/audio_3", 3, false⟩] (temp_file_name "/tmp" 3) = false ∧
    download_audio extPlantPre "/tmp" 3 "u" [] =
      .error (⟨.osError, "Permission denied: /tmp/audio_3"⟩,
        [⟨"/tmp/audio_3", 3, false⟩]) ∧
    (⟨.osError, "Permission denied: /tmp/audio_3"⟩ : PyErr) ≠
      ⟨.valueError, "Error downloading audio: Downloaded audio file not found"⟩ := by
  refine ⟨rfl, rfl, rfl, by decide⟩

/-- C7 (amended): for every download attempt that reports success while
leaving no file at the expected output path, `download_audio` fails with
the wrapped "Downloaded audio file not found" error rather than
returning a path — provided the failure-path cleanup deletions do not
raise (here: every leftover file is deletable). -/
theorem C7_missing_output_amended (ext : Extractor) (temp_dir url : String)
    (timestamp : Nat) (fs fs1 : Fs)
    (hloop : download_loop ext url (temp_file_name temp_dir timestamp)
        format_options fs = (true, fs1))
    (habsent : osPathExists fs1 (temp_file_name temp_dir timestamp) = false)
    (hrem : ∀ ent ∈ fs1, ent.canRemove = true) :
    ∃ fs3, download_audio ext temp_dir timestamp url fs =
        .error (⟨.valueError,
          "Error downloading audio: Downloaded audio file not found"⟩, fs3) ∧
      osPathExists fs3 (temp_file_name temp_dir timestamp) = false ∧
      osPathExists fs3 ((temp_file_name temp_dir timestamp).dropRight 4) = false := by
  have hbody : download_audio_body ext temp_dir timestamp url fs =
      .error (⟨.fileNotFoundError, "Downloaded audio file not found"⟩, fs1) := by
    unfold download_audio_body
    dsimp only
    rw [hloop]
    dsimp only
    rw [if_neg (by simp [habsent])]
  exact download_audio_of_body_error ext temp_dir url timestamp fs fs1
    ⟨.fileNotFoundError, "Downloaded audio file not found"⟩ hbody hrem

/-- C7 (witness): the amended theorem at an extractor that reports success
without writing anything, on an empty filesystem. -/
theorem C7_missing_output_amended_wit :
    ∃ fs3, download_audio extOkKeep "/tmp" 4 "u" [] =
        .error (⟨.valueError,
          "Error downloading audio: Downloaded audio file not found"⟩, fs3) ∧
      osPathExists fs3 (temp_file_name "/tmp" 4) = false ∧
      osPathExists fs3 ((temp_file_name "/tmp" 4).dropRight 4) = false :=
  C7_missing_output_amended extOkKeep "/tmp" "u" 4 [] [] rfl rfl (by simp)

/-- C8: `load_model` loads lazily exactly once per instance: on a fresh
instance the first call invokes the underlying loader once and returns
the handle it produced; any instance with the loaded flag set gets its
cached handle back with zero loader invocations; in particular the second
call returns the identical handle and the identical state with no second
load. -/
theorem C8_load_model_idempotent {H : Type} (loader : Loader H)
    (s : ServiceState H) (h : s.modelLoaded = false) :
    (load_model loader s).2.2 = 1 ∧
    (load_model loader s).1 = some (loader s.modelSize s.device) ∧
    load_model loader (load_model loader s).2.1 =
      ((load_model loader s).1, (load_model loader s).2.1, 0) ∧
    (∀ s2 : ServiceState H, s2.modelLoaded = true →
      load_model loader s2 = (s2.model, s2, 0)) := by
  refine ⟨by simp [load_model, h], by simp [load_model, h],
    by simp [load_model, h], ?_⟩
  intro s2 h2
  simp [load_model, h2]

/-- C8 (witness): the theorem on a freshly initialised CPU service with a
counting-free stub loader returning handle 7. -/
theorem C8_load_model_idempotent_wit :
    (load_model loader0 (service_init Nat false)).2.2 = 1 ∧
    (load_model loader0 (service_init Nat false)).1 = some 7 ∧
    load_model loader0 (load_model loader0 (service_init Nat false)).2.1 =
      ((load_model loader0 (service_init Nat false)).1,
        (load_model loader0 (service_init Nat false)).2.1, 0) :=
  ⟨(C8_load_model_idempotent loader0 (service_init Nat false) rfl).1,
   (C8_load_model_idempotent loader0 (service_init Nat false) rfl).2.1,
   (C8_load_model_idempotent loader0 (service_init Nat false) rfl).2.2.1⟩

/-- C9: `_try_download` is total over the external extractor — by
construction it returns a Boolean rather than raising — and its result is
`True` exactly when the extractor call completes without raising and
`False` exactly when the extractor raises. -/
theorem C9_try_download_total (ext : Extractor) (url temp_file fmt : String)
    (fs : Fs) :
    ((try_download ext url temp_file fmt fs).1 = true ↔
      ∃ fs2, ext (get_ydl_opts temp_file fmt) url fs = .ok fs2) ∧
    ((try_download ext url temp_file fmt fs).1 = false ↔
      ∃ e fs2, ext (get_ydl_opts temp_file fmt) url fs = .error (e, fs2)) := by
  unfold try_download
  rcases h : ext (get_ydl_opts temp_file fmt) url fs with ⟨e, fs2⟩ | fs2 <;> simp [h]

/-- C10: whenever `download_audio` returns normally, its result is the
constructed temp-file path, which is a non-empty string; consequently the
`if not audio_path:` branch of `process_video` (raising "Failed to
download audio") is unreachable: `process_video` computes exactly the same
result as its variant with that check removed. -/
theorem C10_download_path_nonempty_branch_dead :
    (∀ (ext : Extractor) (temp_dir url : String) (timestamp : Nat) (fs : Fs)
      (p : String) (fs2 : Fs),
      download_audio ext temp_dir timestamp url fs = .ok (p, fs2) →
      p = temp_file_name temp_dir timestamp ∧ p ≠ "") ∧
    (∀ (H : Type) (ext : Extractor) (loader : Loader H) (tr : Transcriber H)
      (temp_dir url : String) (timestamp : Nat) (w : World H),
      process_video ext loader tr temp_dir timestamp url w =
        process_video_unchecked ext loader tr temp_dir timestamp url w) := by
  constructor
  · intro ext temp_dir url timestamp fs p fs2 h
    have hp := download_audio_ok_sound h
    refine ⟨hp, ?_⟩
    rw [hp]
    exact temp_file_name_ne_empty temp_dir timestamp
  · intro H ext loader tr temp_dir url timestamp w
    unfold process_video process_video_unchecked
    rcases hd : download_audio ext temp_dir timestamp url w.fs with ⟨e1, fs1⟩ | ⟨p, fs1⟩
    · rfl
    · have hp : p ≠ "" := by
        rw [download_audio_ok_sound hd]
        exact temp_file_name_ne_empty temp_dir timestamp
      dsimp only
      rw [if_neg hp]

/-- C10 (witness): a concrete successful download returns the non-empty
constructed path. -/
theorem C10_download_path_nonempty_branch_dead_wit :
    "/tmp/audio_6.mp3" = temp_file_name "/tmp" 6 ∧ "/tmp/audio_6.mp3" ≠ "" :=
  C10_download_path_nonempty_branch_dead.1 extWriteOut "/tmp" "u" 6 []
    "/tmp/audio_6.mp3" [⟨"/tmp/audio_6.mp3", 10, true⟩] rfl
